import Mathlib

/-!
Shallow embedding of `src/polars_api/api.py` (the `Api` expression
namespace of polars-api): per-row HTTP request records, the synchronous
row executors `_get` / `_post`, the concurrent row executors
`_aget_one` / `_apost_one`, the batch executors `_aget_all` /
`_apost_all` (built on `asyncio.gather` over `zip`-ped input columns),
and the public record resolvers `get` / `post` / `aget` / `apost`.

The HTTP transport (httpx) is modelled as a function from a fully
resolved request to a terminal result: either the transport completes
with a status code and a body text, or it raises a transport-level
error (network error, timeout expiry, malformed URL).  Exceptions are
modelled with `Except Unit`: the source retains no error detail, so the
error payload is `Unit`.  `asyncio.gather` (without
`return_exceptions`) returns the list of results in input order when
every task succeeds and propagates an exception otherwise; since the
error payload carries no information, this is modelled by `gather`
below.  Client lifecycle (the `async with httpx.AsyncClient()` block
that each concurrent row executor opens) is modelled separately as an
event trace, used to reason about connection-pool scoping.
-/

/-- Terminal result of one HTTP transport interaction: the transport
either completes with a status code and a body text, or raises. -/
inductive TransportResult where
  | completed (status_code : Nat) (text : String)
  | raised
deriving DecidableEq, Repr

/-- A fully resolved per-row request record: URL, optional query
parameters, optional JSON body, optional timeout.  Params and body are
opaque row values, modelled as optional strings; the timeout is an
opaque duration, modelled as an optional natural number. -/
structure HttpRequest where
  url : String
  params : Option String
  body : Option String
  timeout : Option Nat
deriving DecidableEq, Repr

/-- The HTTP transport: a deterministic assignment of a terminal result
to every request.  Determinism models a stable endpoint: the same
request always receives the same terminal result. -/
def Transport : Type := HttpRequest → TransportResult

/-- The request issued by `httpx.get(url, params=params, timeout=timeout)`
and by `client.get(url, params=params, timeout=timeout)`: no body. -/
def getRequest (url : String) (params : Option String) (timeout : Option Nat) : HttpRequest :=
  { url := url, params := params, body := none, timeout := timeout }

/-- The request issued by `httpx.post(url, params=params, json=body,
timeout=timeout)` and by `client.post(...)`. -/
def postRequest (url : String) (params : Option String) (body : Option String)
    (timeout : Option Nat) : HttpRequest :=
  { url := url, params := params, body := body, timeout := timeout }

/-- `_check_status_code(status_code)` from api.py:
`return status_code >= 200 and status_code < 300`. -/
def _check_status_code (status_code : Nat) : Bool :=
  decide (200 ≤ status_code ∧ status_code < 300)

/-- `Api._get(url, params, timeout)` from api.py: perform the GET
request; if `_check_status_code(result.status_code)` return
`result.text`, else return `None`.  There is no `try`/`except` in the
source, so a raised transport error propagates (`Except.error`). -/
def Api._get (t : Transport) (url : String) (params : Option String)
    (timeout : Option Nat) : Except Unit (Option String) :=
  match t (getRequest url params timeout) with
  | TransportResult.completed sc text =>
      Except.ok (if _check_status_code sc then some text else none)
  | TransportResult.raised => Except.error ()

/-- `Api._post(url, params, body, timeout)` from api.py: perform the
POST request; on a success status code return `result.text`, else
`None`; a raised transport error propagates. -/
def Api._post (t : Transport) (url : String) (params : Option String)
    (body : Option String) (timeout : Option Nat) : Except Unit (Option String) :=
  match t (postRequest url params body timeout) with
  | TransportResult.completed sc text =>
      Except.ok (if _check_status_code sc then some text else none)
  | TransportResult.raised => Except.error ()

/-- `Api._aget_one(url, params, timeout)` from api.py: open an
`httpx.AsyncClient`, `await client.get(...)`, and return `r.text`
unconditionally — the source performs NO status-code check here and has
no `try`/`except`, so a raised transport error propagates. -/
def Api._aget_one (t : Transport) (url : String) (params : Option String)
    (timeout : Option Nat) : Except Unit String :=
  match t (getRequest url params timeout) with
  | TransportResult.completed _ text => Except.ok text
  | TransportResult.raised => Except.error ()

/-- `Api._apost_one(url, params, body, timeout)` from api.py: open an
`httpx.AsyncClient`, `await client.post(...)`, and return `r.text`
unconditionally — no status-code check, no exception handling. -/
def Api._apost_one (t : Transport) (url : String) (params : Option String)
    (body : Option String) (timeout : Option Nat) : Except Unit String :=
  match t (postRequest url params body timeout) with
  | TransportResult.completed _ text => Except.ok text
  | TransportResult.raised => Except.error ()

/-- `asyncio.gather(*tasks)` with the default `return_exceptions=False`:
if every task succeeds, the list of results in input (launch) order,
regardless of completion order; if any task raises, the exception
propagates to the caller.  The error payload is `Unit` (the source
keeps no error detail), so which failing task's exception propagates
is immaterial. -/
def gather {α : Type} : List (Except Unit α) → Except Unit (List α)
  | [] => Except.ok []
  | r :: rs =>
    match r with
    | Except.error e => Except.error e
    | Except.ok a =>
      match gather rs with
      | Except.error e => Except.error e
      | Except.ok as => Except.ok (a :: as)

/-- `Api._aget_all(x, params, timeout)` from api.py:
`await asyncio.gather(*[self._aget_one(url, param, timeout) for url,
param in zip(x, params)])`.  Python `zip` silently truncates to the
shorter sequence. -/
def Api._aget_all (t : Transport) (x : List String) (params : List (Option String))
    (timeout : Option Nat) : Except Unit (List String) :=
  gather ((x.zip params).map fun up => Api._aget_one t up.1 up.2 timeout)

/-- `Api._apost_all(x, params, body, timeout)` from api.py:
`await asyncio.gather(*[self._apost_one(url, _params, _body, timeout)
for url, _params, _body in zip(x, params, body)])`.  A three-way
Python `zip`, truncating to the shortest sequence. -/
def Api._apost_all (t : Transport) (x : List String) (params : List (Option String))
    (body : List (Option String)) (timeout : Option Nat) : Except Unit (List String) :=
  gather (((x.zip params).zip body).map fun upb =>
    Api._apost_one t upb.1.1 upb.1.2 upb.2 timeout)

/-- Row-by-row application of a fallible per-row function, as
`map_elements` does for the synchronous executors: rows are processed
strictly in input order and an exception raised on any row propagates
to the caller. -/
def mapRows {α β : Type} (f : α → Except Unit β) : List α → Except Unit (List β)
  | [] => Except.ok []
  | a :: as =>
    match f a with
    | Except.error e => Except.error e
    | Except.ok b =>
      match mapRows f as with
      | Except.error e => Except.error e
      | Except.ok bs => Except.ok (b :: bs)

/-- The record resolution performed by `Api.get` / `Api.aget`:
`params` defaults to `pl.lit(None)` (absent for every row) when not
supplied, `pl.struct(url, params)` pairs the columns row-wise, and the
`timeout` argument is captured uniformly for every row.  Record `i` is
the fully resolved GET request for row `i`. -/
def Api.get_records (urls : List String) (params : Option (List (Option String)))
    (timeout : Option Nat) : List HttpRequest :=
  let ps := params.getD (List.replicate urls.length none)
  (urls.zip ps).map fun up => getRequest up.1 up.2 timeout

/-- The record resolution performed by `Api.post` / `Api.apost`:
`params` and `body` each default to `pl.lit(None)` when not supplied;
`timeout` is uniform across rows. -/
def Api.post_records (urls : List String) (params : Option (List (Option String)))
    (body : Option (List (Option String))) (timeout : Option Nat) : List HttpRequest :=
  let ps := params.getD (List.replicate urls.length none)
  let bs := body.getD (List.replicate urls.length none)
  ((urls.zip ps).zip bs).map fun upb => postRequest upb.1.1 upb.1.2 upb.2 timeout

/-- `Api.get(params, timeout)` from api.py: resolve the records, then
`map_elements(lambda x: self._get(x["url"], params=x["params"],
timeout=timeout))` — one synchronous request per row, in input order. -/
def Api.get (t : Transport) (urls : List String) (params : Option (List (Option String)))
    (timeout : Option Nat) : Except Unit (List (Option String)) :=
  mapRows (fun r => Api._get t r.url r.params r.timeout) (Api.get_records urls params timeout)

/-- `Api.post(params, body, timeout)` from api.py: resolve the records,
then one synchronous POST per row, in input order. -/
def Api.post (t : Transport) (urls : List String) (params : Option (List (Option String)))
    (body : Option (List (Option String))) (timeout : Option Nat) :
    Except Unit (List (Option String)) :=
  mapRows (fun r => Api._post t r.url r.params r.body r.timeout)
    (Api.post_records urls params body timeout)

/-- `Api.aget(params, timeout)` from api.py: resolve the columns
(params defaulting to an all-absent column) and hand them to
`_aget` / `_aget_all`. -/
def Api.aget (t : Transport) (urls : List String) (params : Option (List (Option String)))
    (timeout : Option Nat) : Except Unit (List String) :=
  Api._aget_all t urls (params.getD (List.replicate urls.length none)) timeout

/-- `Api.apost(params, body, timeout)` from api.py: resolve the columns
and hand them to `_apost` / `_apost_all`. -/
def Api.apost (t : Transport) (urls : List String) (params : Option (List (Option String)))
    (body : Option (List (Option String))) (timeout : Option Nat) : Except Unit (List String) :=
  Api._apost_all t urls (params.getD (List.replicate urls.length none))
    (body.getD (List.replicate urls.length none)) timeout

/-- Client-lifecycle events of the concurrent row executors: the
`async with httpx.AsyncClient() as client:` block opens a client (with
its own connection pool), issues the request, and closes the client. -/
inductive ClientEvent where
  | openClient
  | request (r : HttpRequest)
  | closeClient
deriving DecidableEq, Repr

/-- The client-lifecycle trace of one `Api._aget_one` call: it opens a
fresh `httpx.AsyncClient`, issues its single GET request, and closes
that client when the request completes. -/
def Api._aget_one_trace (url : String) (params : Option String)
    (timeout : Option Nat) : List ClientEvent :=
  [ClientEvent.openClient, ClientEvent.request (getRequest url params timeout),
   ClientEvent.closeClient]

/-- The client-lifecycle trace of one `Api._apost_one` call. -/
def Api._apost_one_trace (url : String) (params : Option String) (body : Option String)
    (timeout : Option Nat) : List ClientEvent :=
  [ClientEvent.openClient, ClientEvent.request (postRequest url params body timeout),
   ClientEvent.closeClient]

/-- The client-lifecycle events of one `Api._aget_all` batch, one
per-row trace per zipped record.  (The concurrent interleaving may
reorder events across rows; the multiset of events — in particular the
number of `openClient` events — is interleaving-invariant.) -/
def Api._aget_all_trace (x : List String) (params : List (Option String))
    (timeout : Option Nat) : List ClientEvent :=
  ((x.zip params).map fun up => Api._aget_one_trace up.1 up.2 timeout).flatten

/-- The client-lifecycle events of one `Api._apost_all` batch. -/
def Api._apost_all_trace (x : List String) (params : List (Option String))
    (body : List (Option String)) (timeout : Option Nat) : List ClientEvent :=
  (((x.zip params).zip body).map fun upb =>
    Api._apost_one_trace upb.1.1 upb.1.2 upb.2 timeout).flatten

/-- Number of `openClient` events in a trace: how many transport
connection pools the batch opens. -/
def countOpens (es : List ClientEvent) : Nat :=
  es.countP fun e => match e with | ClientEvent.openClient => true | _ => false

/-- Number of `closeClient` events in a trace. -/
def countCloses (es : List ClientEvent) : Nat :=
  es.countP fun e => match e with | ClientEvent.closeClient => true | _ => false

/-! ## Helper lemmas -/

/-- If every task succeeds, `gather` returns the mapped results in
input order. -/
theorem gather_map_ok {α β : Type} (f : α → Except Unit β) (g : α → β)
    (hf : ∀ a, f a = Except.ok (g a)) (l : List α) :
    gather (l.map f) = Except.ok (l.map g) := by
  induction l with
  | nil => rfl
  | cons a as ih => simp [gather, hf a, ih]

/-- If some task raises, `gather` propagates the exception. -/
theorem gather_map_error {α β : Type} (f : α → Except Unit β) (l : List α)
    (h : ∃ a ∈ l, f a = Except.error ()) :
    gather (l.map f) = Except.error () := by
  induction l with
  | nil => simp at h
  | cons a as ih =>
    rcases h with ⟨b, hb, hfb⟩
    rcases List.mem_cons.mp hb with rfl | hbs
    · simp [gather, hfb]
    · cases hfa : f a with
      | error e => simp [gather, hfa]
      | ok v => simp [gather, hfa, ih ⟨b, hbs, hfb⟩]

/-- If every row succeeds, `mapRows` returns the mapped results in
input order. -/
theorem mapRows_map_ok {α β γ : Type} (f : β → Except Unit γ) (m : α → β) (g : α → γ)
    (hf : ∀ a, f (m a) = Except.ok (g a)) (l : List α) :
    mapRows f (l.map m) = Except.ok (l.map g) := by
  induction l with
  | nil => rfl
  | cons a as ih => simp [mapRows, hf a, ih]

/-- If some row raises, `mapRows` propagates the exception. -/
theorem mapRows_map_error {α β γ : Type} (f : β → Except Unit γ) (m : α → β) (l : List α)
    (h : ∃ a ∈ l, f (m a) = Except.error ()) :
    mapRows f (l.map m) = Except.error () := by
  induction l with
  | nil => simp at h
  | cons a as ih =>
    rcases h with ⟨b, hb, hfb⟩
    rcases List.mem_cons.mp hb with rfl | hbs
    · simp [mapRows, hfb]
    · cases hfa : f (m a) with
      | error e => simp [mapRows, hfa]
      | ok v => simp [mapRows, hfa, ih ⟨b, hbs, hfb⟩]

/-! ## Concrete transports used by witnesses and counterexamples -/

/-- A transport on which every request completes with status 200 and a
body equal to the request URL. -/
def t200 : Transport := fun r => TransportResult.completed 200 r.url

/-- A transport on which every request completes with status 404 and
body text "err". -/
def t404 : Transport := fun _ => TransportResult.completed 404 "err"

/-- A transport on which every request raises a transport-level error. -/
def tRaise : Transport := fun _ => TransportResult.raised

/-! ## Claims -/

/-- Claim C1: for every input sequence of request records, both the
concurrent executors (`_aget_all` / `_apost_all`, behind `aget` /
`apost`) and the synchronous executors (`get` / `post`) return a result
sequence whose length equals the input length, and whose element at
index `i` is the outcome of the request built from record `i` —
independent of any completion order, since the results are the mapped
image of the zipped records in input order.  Stated for a transport on
which every request completes (a raising transport makes the executors
propagate the exception instead; see C3) and for equal-length input
columns (a shorter column truncates; see C5/C6). -/
theorem c1_length_and_alignment
    (t : Transport) (sc : HttpRequest → Nat) (txt : HttpRequest → String)
    (ht : ∀ r, t r = TransportResult.completed (sc r) (txt r))
    (x : List String) (ps bs : List (Option String)) (tmo : Option Nat)
    (hp : ps.length = x.length) (hb : bs.length = x.length) :
    (Api._aget_all t x ps tmo =
      Except.ok ((x.zip ps).map fun up => txt (getRequest up.1 up.2 tmo)))
    ∧ (Api._apost_all t x ps bs tmo =
      Except.ok (((x.zip ps).zip bs).map fun upb =>
        txt (postRequest upb.1.1 upb.1.2 upb.2 tmo)))
    ∧ (Api.get t x (some ps) tmo =
      Except.ok ((x.zip ps).map fun up =>
        if _check_status_code (sc (getRequest up.1 up.2 tmo))
        then some (txt (getRequest up.1 up.2 tmo)) else none))
    ∧ (Api.post t x (some ps) (some bs) tmo =
      Except.ok (((x.zip ps).zip bs).map fun upb =>
        if _check_status_code (sc (postRequest upb.1.1 upb.1.2 upb.2 tmo))
        then some (txt (postRequest upb.1.1 upb.1.2 upb.2 tmo)) else none))
    ∧ ((x.zip ps).length = x.length ∧ ((x.zip ps).zip bs).length = x.length)
    ∧ (∀ l, Api._aget_all t x ps tmo = Except.ok l →
        ∀ i (h1 : i < x.length) (h2 : i < ps.length) (h3 : i < l.length),
          l.get ⟨i, h3⟩ = txt (getRequest (x.get ⟨i, h1⟩) (ps.get ⟨i, h2⟩) tmo)) := by
  have hzl : (x.zip ps).length = x.length := by
    rw [List.length_zip, hp, Nat.min_self]
  have hzzl : ((x.zip ps).zip bs).length = x.length := by
    rw [List.length_zip, hzl, hb, Nat.min_self]
  have hag : Api._aget_all t x ps tmo =
      Except.ok ((x.zip ps).map fun up => txt (getRequest up.1 up.2 tmo)) := by
    unfold Api._aget_all
    exact gather_map_ok _ _ (fun up => by simp [Api._aget_one, ht]) _
  refine ⟨hag, ?_, ?_, ?_, ⟨hzl, hzzl⟩, ?_⟩
  · unfold Api._apost_all
    exact gather_map_ok _ _ (fun upb => by simp [Api._apost_one, ht]) _
  · unfold Api.get Api.get_records
    simp only [Option.getD_some]
    exact mapRows_map_ok _ _ _ (fun up => by simp [Api._get, getRequest, ht]) _
  · unfold Api.post Api.post_records
    simp only [Option.getD_some]
    exact mapRows_map_ok _ _ _ (fun upb => by simp [Api._post, postRequest, ht]) _
  · intro l hl i h1 h2 h3
    rw [hag] at hl
    cases hl
    simp [List.get_eq_getElem, List.getElem_map, List.getElem_zip]

/-- Witness for C1 at a concrete batch of two records. -/
theorem c1_witness :
    Api._aget_all t200 ["a", "b"] [none, none] none = Except.ok ["a", "b"]
    ∧ Api.get t200 ["a", "b"] (some [none, none]) none =
        Except.ok [some "a", some "b"] := by
  have h := c1_length_and_alignment t200 (fun _ => 200) (fun r => r.url)
    (fun _ => rfl) ["a", "b"] [none, none] [none, none] none rfl rfl
  exact ⟨h.1, h.2.2.1⟩

/-- Claim C2 counterexample: on a transport that completes with status
404 and body "err", the concurrent row executor `_aget_one` returns
the body text ("Success") instead of the Failure marker demanded by
the claim — its result type cannot even represent Failure, its only
non-Success outcome being a propagated exception — while the
synchronous `_get` does return the Failure marker (`none`). -/
theorem c2_counterexample :
    Api._aget_one t404 "u" none none = Except.ok "err"
    ∧ Api._aget_one t404 "u" none none ≠ Except.error ()
    ∧ Api._get t404 "u" none none = Except.ok none := by
  refine ⟨rfl, ?_, rfl⟩
  intro h
  simp [Api._aget_one, t404] at h

/-- Claim C2 (amended): only the SYNCHRONOUS executors classify by
status code — for a transport completing with status `sc r` and body
`txt r`, `_get` / `_post` yield `Success(text)` when the status lies in
[200, 300) and Failure (`none`) otherwise; the CONCURRENT executors
`_aget_one` / `_apost_one` perform no status check and return the body
text regardless of the status code. -/
theorem c2_amended_status_classification
    (t : Transport) (sc : HttpRequest → Nat) (txt : HttpRequest → String)
    (ht : ∀ r, t r = TransportResult.completed (sc r) (txt r))
    (url : String) (p b : Option String) (tmo : Option Nat) :
    (Api._get t url p tmo =
      Except.ok (if _check_status_code (sc (getRequest url p tmo))
        then some (txt (getRequest url p tmo)) else none))
    ∧ (Api._post t url p b tmo =
      Except.ok (if _check_status_code (sc (postRequest url p b tmo))
        then some (txt (postRequest url p b tmo)) else none))
    ∧ (Api._aget_one t url p tmo = Except.ok (txt (getRequest url p tmo)))
    ∧ (Api._apost_one t url p b tmo = Except.ok (txt (postRequest url p b tmo))) := by
  refine ⟨?_, ?_, ?_, ?_⟩ <;>
    simp [Api._get, Api._post, Api._aget_one, Api._apost_one, ht]

/-- Witness for the amended C2 at a concrete 404 response. -/
theorem c2_amended_witness :
    Api._get t404 "u" none none = Except.ok none
    ∧ Api._aget_one t404 "u" none none = Except.ok "err" := by
  have h := c2_amended_status_classification t404 (fun _ => 404) (fun _ => "err")
    (fun _ => rfl) "u" none none none
  exact ⟨h.1, h.2.2.1⟩

/-- Claim C3 counterexample: on a transport that raises, the
synchronous row executor `_get`, the synchronous batch `get`, and the
concurrent batch `_aget_all` all propagate the exception to the caller
(`Except.error`) instead of producing a per-row Failure; in the
concurrent batch the second (sibling) request's result is discarded
with the whole batch. -/
theorem c3_counterexample :
    Api._get tRaise "u" none none = Except.error ()
    ∧ Api._aget_all tRaise ["u", "v"] [none, none] none = Except.error ()
    ∧ Api.get tRaise ["u"] (some [none]) none = Except.error () :=
  ⟨rfl, rfl, rfl⟩

/-- Claim C3 (amended): when the transport raises for a request, the
per-row executors propagate the exception to the caller (there is no
`try`/`except` in the source), and a batch containing any raising row
fails as a whole — no result sequence is returned, so sibling results
are discarded rather than delivered. -/
theorem c3_amended_error_propagation
    (t : Transport) (url : String) (p : Option String) (tmo : Option Nat)
    (hr : t (getRequest url p tmo) = TransportResult.raised) :
    (Api._get t url p tmo = Except.error ())
    ∧ (Api._aget_one t url p tmo = Except.error ())
    ∧ (∀ (x : List String) (ps : List (Option String)),
        (∃ up ∈ x.zip ps, t (getRequest up.1 up.2 tmo) = TransportResult.raised) →
        Api._aget_all t x ps tmo = Except.error ())
    ∧ (∀ (x : List String) (ps : List (Option String)),
        (∃ up ∈ x.zip ps, t (getRequest up.1 up.2 tmo) = TransportResult.raised) →
        Api.get t x (some ps) tmo = Except.error ()) := by
  refine ⟨?_, ?_, ?_, ?_⟩
  · simp [Api._get, hr]
  · simp [Api._aget_one, hr]
  · intro x ps ⟨up, hup, hraise⟩
    unfold Api._aget_all
    exact gather_map_error _ _ ⟨up, hup, by simp [Api._aget_one, hraise]⟩
  · intro x ps ⟨up, hup, hraise⟩
    unfold Api.get Api.get_records
    simp only [Option.getD_some]
    refine mapRows_map_error _ _ _ ⟨up, hup, ?_⟩
    have hraise2 : t { url := up.1, params := up.2, body := none, timeout := tmo } =
        TransportResult.raised := hraise
    simp [Api._get, getRequest, hraise2]

/-- Witness for the amended C3 at a concrete raising transport. -/
theorem c3_amended_witness :
    Api._get tRaise "u" none none = Except.error ()
    ∧ Api._aget_all tRaise ["u", "v"] [none, none] none = Except.error () := by
  have h := c3_amended_error_propagation tRaise "u" none none rfl
  exact ⟨h.1, h.2.2.1 ["u", "v"] [none, none] ⟨("u", none), by simp, rfl⟩⟩

/-- Claim C4 counterexample: on a transport answering status 404 with
body "err", the synchronous `get` classifies the row as Failure
(`none`) while the concurrent `aget` returns the body text, so the two
executors do not produce the same result sequence for the same records
and the same transport responses. -/
theorem c4_counterexample :
    Api.get t404 ["u"] (some [none]) none = Except.ok [none]
    ∧ Api.aget t404 ["u"] (some [none]) none = Except.ok ["err"]
    ∧ Api.get t404 ["u"] (some [none]) none ≠
        Except.map (List.map some) (Api.aget t404 ["u"] (some [none]) none) := by
  refine ⟨rfl, rfl, ?_⟩
  intro h
  simp [Api.get, Api.aget, Api.get_records, Api._aget_all, Api._aget_one, Api._get,
    mapRows, gather, t404, getRequest, Except.map, _check_status_code] at h

/-- Claim C4 (amended): the synchronous and concurrent executors agree
only when every response status is a success status: if the transport
completes every request with a status in [200, 300), then `get` equals
`aget` (and `post` equals `apost`) up to wrapping each concurrent text
result in the `Success` marker.  When some status is outside [200, 300)
they disagree (see the counterexample): `get` / `post` collapse the row
to Failure while `aget` / `apost` return the body text. -/
theorem c4_amended_agreement_on_success
    (t : Transport) (sc : HttpRequest → Nat) (txt : HttpRequest → String)
    (ht : ∀ r, t r = TransportResult.completed (sc r) (txt r))
    (h2xx : ∀ r, _check_status_code (sc r) = true)
    (x : List String) (ps bs : List (Option String)) (tmo : Option Nat) :
    Api.get t x (some ps) tmo =
      Except.map (List.map some) (Api.aget t x (some ps) tmo)
    ∧ Api.post t x (some ps) (some bs) tmo =
      Except.map (List.map some) (Api.apost t x (some ps) (some bs) tmo) := by
  have hag : Api.aget t x (some ps) tmo =
      Except.ok ((x.zip ps).map fun up => txt (getRequest up.1 up.2 tmo)) := by
    unfold Api.aget Api._aget_all
    simp only [Option.getD_some]
    exact gather_map_ok _ _ (fun up => by simp [Api._aget_one, ht]) _
  have hap : Api.apost t x (some ps) (some bs) tmo =
      Except.ok (((x.zip ps).zip bs).map fun upb =>
        txt (postRequest upb.1.1 upb.1.2 upb.2 tmo)) := by
    unfold Api.apost Api._apost_all
    simp only [Option.getD_some]
    exact gather_map_ok _ _ (fun upb => by simp [Api._apost_one, ht]) _
  constructor
  · rw [hag]
    unfold Api.get Api.get_records
    simp only [Option.getD_some]
    rw [mapRows_map_ok _ _ (fun up => some (txt (getRequest up.1 up.2 tmo)))
      (fun up => by simp [Api._get, getRequest, ht, h2xx]) _]
    simp [Except.map, List.map_map, Function.comp]
  · rw [hap]
    unfold Api.post Api.post_records
    simp only [Option.getD_some]
    rw [mapRows_map_ok _ _ (fun upb => some (txt (postRequest upb.1.1 upb.1.2 upb.2 tmo)))
      (fun upb => by simp [Api._post, postRequest, ht, h2xx]) _]
    simp [Except.map, List.map_map, Function.comp]

/-- Witness for the amended C4 at a concrete all-200 transport. -/
theorem c4_amended_witness :
    Api.get t200 ["a", "b"] (some [none, none]) none =
      Except.map (List.map some) (Api.aget t200 ["a", "b"] (some [none, none]) none) := by
  exact (c4_amended_agreement_on_success t200 (fun _ => 200) (fun r => r.url)
    (fun _ => rfl) (fun _ => rfl) ["a", "b"] [none, none] [] none).1

/-- Claim C5 counterexample: with a params column of length 2 and a URL
column of length 3, the concurrent batch executor `_aget_all` raises no
`ShapeMismatch` — it issues the two zipped requests and returns a
result sequence of length 2, silently dropping the third URL. -/
theorem c5_counterexample :
    Api._aget_all t200 ["a", "b", "c"] [none, none] none = Except.ok ["a", "b"]
    ∧ Api._aget_all t200 ["a", "b", "c"] [none, none] none ≠ Except.error () := by
  refine ⟨rfl, ?_⟩
  intro h
  simp [Api._aget_all, Api._aget_one, gather, t200] at h

/-- Claim C5 (amended): the batch executors perform no length check at
all — for a transport on which every request completes, `_aget_all` and
`_apost_all` return `Except.ok` for ALL input lengths, equal or not; a
length mismatch never produces an error, it silently truncates the
batch to the zipped prefix. -/
theorem c5_amended_no_shape_check
    (t : Transport) (sc : HttpRequest → Nat) (txt : HttpRequest → String)
    (ht : ∀ r, t r = TransportResult.completed (sc r) (txt r))
    (x : List String) (ps bs : List (Option String)) (tmo : Option Nat) :
    (∃ l, Api._aget_all t x ps tmo = Except.ok l)
    ∧ (∃ l, Api._apost_all t x ps bs tmo = Except.ok l) := by
  constructor
  · exact ⟨_, gather_map_ok _ (fun up => txt (getRequest up.1 up.2 tmo))
      (fun up => by simp [Api._aget_one, ht]) _⟩
  · exact ⟨_, gather_map_ok _ (fun upb => txt (postRequest upb.1.1 upb.1.2 upb.2 tmo))
      (fun upb => by simp [Api._apost_one, ht]) _⟩

/-- Witness for the amended C5 at mismatched lengths 3 and 2. -/
theorem c5_amended_witness :
    (∃ l, Api._aget_all t200 ["a", "b", "c"] [none, none] none = Except.ok l) := by
  exact (c5_amended_no_shape_check t200 (fun _ => 200) (fun r => r.url)
    (fun _ => rfl) ["a", "b", "c"] [none, none] [] none).1

/-- Claim C6: in the concurrent executors the per-row pairing is built
with Python `zip`, so when the params column (or, for `_apost_all`, the
body column) is shorter than the URL column the result sequence
silently has the length of the shortest input — trailing URLs are
dropped and no error is raised.  Stated for a transport on which every
request completes. -/
theorem c6_zip_truncation
    (t : Transport) (sc : HttpRequest → Nat) (txt : HttpRequest → String)
    (ht : ∀ r, t r = TransportResult.completed (sc r) (txt r))
    (x : List String) (ps bs : List (Option String)) (tmo : Option Nat) :
    (∃ l, Api._aget_all t x ps tmo = Except.ok l
      ∧ l.length = min x.length ps.length)
    ∧ (∃ l, Api._apost_all t x ps bs tmo = Except.ok l
      ∧ l.length = min (min x.length ps.length) bs.length) := by
  constructor
  · refine ⟨_, gather_map_ok _ (fun up => txt (getRequest up.1 up.2 tmo))
      (fun up => by simp [Api._aget_one, ht]) _, ?_⟩
    rw [List.length_map, List.length_zip]
  · refine ⟨_, gather_map_ok _ (fun upb => txt (postRequest upb.1.1 upb.1.2 upb.2 tmo))
      (fun upb => by simp [Api._apost_one, ht]) _, ?_⟩
    rw [List.length_map, List.length_zip, List.length_zip]

/-- Witness for C6: three URLs, two params — the result has length 2. -/
theorem c6_witness :
    ∃ l, Api._aget_all t200 ["a", "b", "c"] [none, none] none = Except.ok l
      ∧ l.length = min 3 2 := by
  exact (c6_zip_truncation t200 (fun _ => 200) (fun r => r.url) (fun _ => rfl)
    ["a", "b", "c"] [none, none] [] none).1

/-- Claim C7: the resolver produces record `i` equal to
`{url: urls[i], params: params[i], body: body[i], timeout: timeout}`;
when `params` (or `body`) is not supplied it defaults to absent for
every row; the `timeout` argument is applied uniformly to every record
rather than per row. -/
theorem c7_resolver_records
    (urls : List String) (ps bs : List (Option String)) (tmo : Option Nat)
    (hp : ps.length = urls.length) (hb : bs.length = urls.length) :
    ((Api.get_records urls (some ps) tmo).length = urls.length)
    ∧ ((Api.post_records urls (some ps) (some bs) tmo).length = urls.length)
    ∧ (∀ i (h1 : i < urls.length) (h2 : i < ps.length)
        (h3 : i < (Api.get_records urls (some ps) tmo).length),
        (Api.get_records urls (some ps) tmo).get ⟨i, h3⟩ =
          getRequest (urls.get ⟨i, h1⟩) (ps.get ⟨i, h2⟩) tmo)
    ∧ (∀ i (h1 : i < urls.length) (h2 : i < ps.length) (h3 : i < bs.length)
        (h4 : i < (Api.post_records urls (some ps) (some bs) tmo).length),
        (Api.post_records urls (some ps) (some bs) tmo).get ⟨i, h4⟩ =
          postRequest (urls.get ⟨i, h1⟩) (ps.get ⟨i, h2⟩) (bs.get ⟨i, h3⟩) tmo)
    ∧ (∀ r ∈ Api.get_records urls none tmo, r.params = none)
    ∧ (∀ r ∈ Api.post_records urls none none tmo, r.params = none ∧ r.body = none)
    ∧ (∀ r ∈ Api.get_records urls (some ps) tmo, r.timeout = tmo)
    ∧ (∀ r ∈ Api.post_records urls (some ps) (some bs) tmo, r.timeout = tmo) := by
  refine ⟨?_, ?_, ?_, ?_, ?_, ?_, ?_, ?_⟩
  · simp [Api.get_records, List.length_zip, hp]
  · simp [Api.post_records, List.length_zip, hp, hb]
  · intro i h1 h2 h3
    simp [Api.get_records, List.get_eq_getElem, List.getElem_map, List.getElem_zip]
  · intro i h1 h2 h3 h4
    simp [Api.post_records, List.get_eq_getElem, List.getElem_map, List.getElem_zip]
  · intro r hr
    simp only [Api.get_records, Option.getD_none, List.mem_map] at hr
    rcases hr with ⟨up, hup, rfl⟩
    have := List.of_mem_zip hup
    simp [getRequest, List.eq_of_mem_replicate this.2]
  · intro r hr
    simp only [Api.post_records, Option.getD_none, List.mem_map] at hr
    rcases hr with ⟨upb, hupb, rfl⟩
    have h1 := List.of_mem_zip hupb
    have h2 := List.of_mem_zip h1.1
    exact ⟨by simp [postRequest, List.eq_of_mem_replicate h2.2],
      by simp [postRequest, List.eq_of_mem_replicate h1.2]⟩
  · intro r hr
    simp only [Api.get_records, List.mem_map] at hr
    rcases hr with ⟨up, _, rfl⟩
    rfl
  · intro r hr
    simp only [Api.post_records, List.mem_map] at hr
    rcases hr with ⟨upb, _, rfl⟩
    rfl

/-- Witness for C7 at a concrete two-row column. -/
theorem c7_witness :
    (Api.get_records ["a", "b"] (some [some "p", none]) (some 5)).length = 2
    ∧ (∀ r ∈ Api.get_records ["a", "b"] none (some 5), r.params = none) := by
  have h := c7_resolver_records ["a", "b"] [some "p", none] [none, none] (some 5) rfl rfl
  exact ⟨h.1, h.2.2.2.2.1⟩

/-- Claim C8: the executors keep no state across invocations — the
result of a batch is a function of the inputs and of the transport's
responses alone, so re-running the same batch of GET requests against
a stable endpoint (a transport giving the same response to every
request both times) yields the same result sequence. -/
theorem c8_idempotent_rerun
    (t1 t2 : Transport) (ht : ∀ r, t1 r = t2 r)
    (urls : List String) (ps : Option (List (Option String))) (tmo : Option Nat) :
    Api.aget t1 urls ps tmo = Api.aget t2 urls ps tmo
    ∧ Api.get t1 urls ps tmo = Api.get t2 urls ps tmo := by
  have h : t1 = t2 := funext ht
  subst h
  exact ⟨rfl, rfl⟩

/-- Witness for C8 at a concrete batch. -/
theorem c8_witness :
    Api.aget t200 ["a"] none none = Api.aget (fun r => t200 r) ["a"] none none := by
  exact (c8_idempotent_rerun t200 (fun r => t200 r) (fun _ => rfl) ["a"] none none).1

/-- The sum of a constant-one map is the list length. -/
theorem sum_map_one {α : Type} (l : List α) : (l.map fun _ => (1 : Nat)).sum = l.length := by
  induction l with
  | nil => rfl
  | cons a as ih => simp [ih]; omega

/-- `countOpens` distributes over a concatenation of per-row traces. -/
theorem countOpens_flatten (l : List (List ClientEvent)) :
    countOpens l.flatten = (l.map countOpens).sum := by
  induction l with
  | nil => rfl
  | cons a as ih => simp [countOpens, List.countP_append] at ih ⊢; omega

/-- `countCloses` distributes over a concatenation of per-row traces. -/
theorem countCloses_flatten (l : List (List ClientEvent)) :
    countCloses l.flatten = (l.map countCloses).sum := by
  induction l with
  | nil => rfl
  | cons a as ih => simp [countCloses, List.countP_append] at ih ⊢; omega

/-- Claim C9 counterexample: a concurrent GET batch of two requests
opens two transport clients (two connection pools), one per request —
not the single batch-wide pool the claim describes. -/
theorem c9_counterexample :
    countOpens (Api._aget_all_trace ["a", "b"] [none, none] none) = 2
    ∧ countOpens (Api._aget_all_trace ["a", "b"] [none, none] none) ≠ 1 := by
  refine ⟨?_, ?_⟩ <;> decide

/-- Claim C9 (amended): each concurrent row executor opens its OWN
`httpx.AsyncClient` (with its own connection pool) and closes it when
that one request completes, so a batch of `n` zipped requests opens and
closes `n` clients — one per request — and no pool is shared across the
batch (nor, a fortiori, across separate column-fetch calls, each of
which builds its own traces afresh). -/
theorem c9_amended_client_per_request
    (x : List String) (ps bs : List (Option String)) (tmo : Option Nat) :
    (countOpens (Api._aget_all_trace x ps tmo) = (x.zip ps).length
      ∧ countCloses (Api._aget_all_trace x ps tmo) = (x.zip ps).length)
    ∧ (countOpens (Api._apost_all_trace x ps bs tmo) = ((x.zip ps).zip bs).length
      ∧ countCloses (Api._apost_all_trace x ps bs tmo) = ((x.zip ps).zip bs).length)
    ∧ (∀ u p b, countOpens (Api._aget_one_trace u p tmo) = 1
      ∧ countCloses (Api._aget_one_trace u p tmo) = 1
      ∧ countOpens (Api._apost_one_trace u p b tmo) = 1
      ∧ countCloses (Api._apost_one_trace u p b tmo) = 1) := by
  refine ⟨⟨?_, ?_⟩, ⟨?_, ?_⟩, ?_⟩
  · rw [Api._aget_all_trace, countOpens_flatten, List.map_map]
    rw [show (countOpens ∘ fun up : String × Option String => Api._aget_one_trace up.1 up.2 tmo) = fun _ => 1
      from funext fun _ => rfl, sum_map_one]
  · rw [Api._aget_all_trace, countCloses_flatten, List.map_map]
    rw [show (countCloses ∘ fun up : String × Option String => Api._aget_one_trace up.1 up.2 tmo) = fun _ => 1
      from funext fun _ => rfl, sum_map_one]
  · rw [Api._apost_all_trace, countOpens_flatten, List.map_map]
    rw [show (countOpens ∘ fun upb : (String × Option String) × Option String => Api._apost_one_trace upb.1.1 upb.1.2 upb.2 tmo) = fun _ => 1
      from funext fun _ => rfl, sum_map_one]
  · rw [Api._apost_all_trace, countCloses_flatten, List.map_map]
    rw [show (countCloses ∘ fun upb : (String × Option String) × Option String => Api._apost_one_trace upb.1.1 upb.1.2 upb.2 tmo) = fun _ => 1
      from funext fun _ => rfl, sum_map_one]
  · intro u p b
    refine ⟨?_, ?_, ?_, ?_⟩ <;> rfl
